import Mathlib

/-!
Shallow embedding of `pyflakes/scripts/pyflakes.py` (the command-line
pyflakes tool: Reporter, check, checkPath, main) and proofs about the
claims of its specification.

Modelling conventions:
* Python strings are Lean `String`s; `len` is `String.length`.
* `SyntaxError` values caught by `check` are records `SynErr` carrying
  `msg` (= `value.args[0]`), `lineno`, `offset` (optional, may become
  negative after the recomputation, hence `Int`) and `text` (optional).
* The external parser (`compile(..., PyCF_ONLY_AST)`) together with the
  external analyzer (`checker.Checker`) is abstracted as a
  `ParseResult`: either the ordered list of analyzer messages obtained
  from the parsed tree, or the caught `SyntaxError`.  Both are opaque
  collaborators; `check` only consumes their results.
* A raised exception that escapes a function is modelled as `none` in
  an `Option` result; the normal return is `some`.
* Writes to the reporter's stream (`sys.stderr` by default) and the
  `print` statement's stream (`sys.stdout`) are recorded as separate
  lists of written strings.
* `str.splitlines()` is modelled for `\n` line terminators (`checkPath`
  opens files in universal-newlines mode, which normalizes `\r\n` and
  `\r` to `\n`).
-/

namespace Pyflakes

/-- A message produced by the external analyzer (`checker.Checker`):
its line number and its rendered text (`str(warning)`). -/
structure PyMessage where
  lineno : Nat
  text : String
deriving DecidableEq, Repr

/-- The data of a caught `SyntaxError`: `value.args[0]`, `value.lineno`,
`value.offset`, `value.text`. -/
structure SynErr where
  msg : String
  lineno : Nat
  offset : Option Int
  text : Option String
deriving DecidableEq, Repr

/-- Outcome of `compile(codeString, filename, "exec", PyCF_ONLY_AST)`
followed (on success) by the external analyzer: either the analyzer's
ordered message list for the parsed tree, or the caught `SyntaxError`. -/
inductive ParseResult where
  | ok (messages : List PyMessage)
  | synError (e : SynErr)
deriving DecidableEq, Repr

/-- The diagnostic categories emitted through the `Reporter`
(the spec's Diagnostic cases other than analysis warnings). -/
inductive Diagnostic where
  | ioFailure (path msg : String)
  | decodeFailure (path : String)
  | synFailure (path msg : String) (lineno : Nat) (offset : Option Int) (line : String)
deriving DecidableEq, Repr

/-- Python string repetition `" " * n`: empty for `n ≤ 0`. -/
def pySpaces (n : Int) : String :=
  String.mk (List.replicate n.toNat ' ')

/-- `str.splitlines()` on a character list, for `\n` terminators:
a trailing newline does not create a final empty line. -/
def pySplitAux (acc : List Char) : List Char → List String
  | [] => [String.mk acc.reverse]
  | c :: rest =>
    if c = '\n' then
      match rest with
      | [] => [String.mk acc.reverse]
      | _ :: _ => String.mk acc.reverse :: pySplitAux [] rest
    else
      pySplitAux (c :: acc) rest

/-- `str.splitlines()`: `""` yields `[]`. -/
def pySplitlines (s : String) : List String :=
  match s.data with
  | [] => []
  | c :: rest => pySplitAux [] (c :: rest)

/-- `Reporter.ioError`: writes `"%s: %s\n" % (filename, msg.args[1])`. -/
def Reporter.ioErrorMsg (filename msg : String) : String :=
  filename ++ ": " ++ msg ++ "\n"

/-- `Reporter.problemDecodingSource`: its two `write` calls produce the
single message `filename + ": problem decoding source\n"`. -/
def Reporter.decodeMsg (filename : String) : String :=
  filename ++ ": problem decoding source\n"

/-- The caret part written by `Reporter.syntaxError`:
`" " * (offset + 1) + "^\n"` when the offset is present, nothing
otherwise. -/
def caretOf : Option Int → String
  | none => ""
  | some o => pySpaces (o + 1) ++ "^\n"

/-- `Reporter.syntaxError`: its `write` calls produce the message
`"%s:%d: %s\n" % (filename, lineno, msg)` then the line, `"\n"`, and
the caret part. -/
def Reporter.synErrorMsg (filename msg : String) (lineno : Nat)
    (offset : Option Int) (line : String) : String :=
  filename ++ ":" ++ toString lineno ++ ": " ++ msg ++ "\n" ++ line ++ "\n" ++ caretOf offset

/-- The relation by which `check` sorts analyzer messages:
`cmp(a.lineno, b.lineno)`. -/
def msgLe (a b : PyMessage) : Prop :=
  a.lineno ≤ b.lineno

instance : DecidableRel msgLe := fun a b => Nat.decLe a.lineno b.lineno

instance : IsTotal PyMessage msgLe := ⟨fun a b => Nat.le_total a.lineno b.lineno⟩

instance : IsTrans PyMessage msgLe := ⟨fun _ _ _ h h' => Nat.le_trans h h'⟩

/-- `w.messages.sort(lambda a, b: cmp(a.lineno, b.lineno))`: CPython's
list sort is stable, so it is the stable sort by line number, here
realized as insertion sort with `msgLe`. -/
def sortByLine (l : List PyMessage) : List PyMessage :=
  List.insertionSort msgLe l

/-- Everything observable from one `check` call: the messages written to
the reporter's stream, the lines printed to `sys.stdout`, the reporter
calls made (as `Diagnostic`s), the sorted warnings, and the returned
count. -/
structure CheckOut where
  errWrites : List String
  outWrites : List String
  diags : List Diagnostic
  warningsOut : List PyMessage
  count : Nat
deriving DecidableEq, Repr

/-- The function `check(codeString, filename, reporter)`, given the
outcome of parsing (and, on success, of the analyzer) for its
`codeString`.  `none` models an exception escaping `check`: in the
`SyntaxError` handler, `text.splitlines()[-1]` raises `IndexError`
when `text` is the empty string. -/
def check (filename : String) (pr : ParseResult) : Option CheckOut :=
  match pr with
  | .synError e =>
    match e.text with
    | none =>
      some { errWrites := [Reporter.decodeMsg filename]
             outWrites := []
             diags := [.decodeFailure filename]
             warningsOut := []
             count := 1 }
    | some t =>
      match (pySplitlines t).getLast? with
      | none => none
      | some line =>
        let off := e.offset.map fun o => o - ((t.length : Int) - (line.length : Int))
        some { errWrites := [Reporter.synErrorMsg filename e.msg e.lineno off line]
               outWrites := []
               diags := [.synFailure filename e.msg e.lineno off line]
               warningsOut := []
               count := 1 }
  | .ok messages =>
    let sorted := sortByLine messages
    some { errWrites := []
           outWrites := sorted.map fun m => m.text ++ "\n"
           diags := []
           warningsOut := sorted
           count := sorted.length }

/-- Outcome of `file(filename, 'U').read()`: the decoded content, or the
caught `IOError` (carrying `msg.args[1]`). -/
inductive ReadResult where
  | ok (content : String)
  | ioError (msg : String)
deriving DecidableEq, Repr

/-- The function `checkPath(filename, reporter)`: reads the file,
appends `'\n'`, and delegates to `check`; an `IOError` is reported and
counted as 1.  `parse` abstracts parser and analyzer as in `check`. -/
def checkPath (filename : String) (readRes : ReadResult)
    (parse : String → ParseResult) : Option CheckOut :=
  match readRes with
  | .ioError m =>
    some { errWrites := [Reporter.ioErrorMsg filename m]
           outWrites := []
           diags := [.ioFailure filename m]
           warningsOut := []
           count := 1 }
  | .ok content => check filename (parse (content ++ "\n"))

/-- The two output streams of the process. -/
inductive StreamTag where
  | stdout
  | stderr
deriving DecidableEq, Repr

/-- A constructed `Reporter` instance: the stream it writes to and where
it was constructed (`Reporter(sys.stderr)` in `main` versus the default
`Reporter(sys.stderr)` constructed inside `check`/`checkPath` when the
`reporter` argument is `None`). -/
structure RepInst where
  stream : StreamTag
  madeBy : String
deriving DecidableEq, Repr

/-- The `Reporter(sys.stderr)` that `main` constructs at its start. -/
def mainReporter : RepInst :=
  { stream := .stderr, madeBy := "main" }

/-- The default `Reporter(sys.stderr)` that `check` constructs when its
`reporter` argument is `None`. -/
def checkDefaultReporter : RepInst :=
  { stream := .stderr, madeBy := "check" }

/-- The reporter `check` ends up using: the given one, or the freshly
constructed default. -/
def reporterUsedByCheck : Option RepInst → RepInst
  | some r => r
  | none => checkDefaultReporter

/-- One per-unit call made by `main`: `checkPath(path, reporter)` for a
path argument (or a `.py` file found under a directory argument), or
`check(sys.stdin.read(), '<stdin>')` when there are no arguments.  The
`Option RepInst` is the reporter argument passed at the call site. -/
inductive UnitCall where
  | pathCall (path : String) (rep : Option RepInst)
  | stdinCall (filename : String) (rep : Option RepInst)
deriving DecidableEq, Repr

/-- Expansion of one command-line argument: a directory argument is
walked recursively for files ending in `.py` (`walkPy` abstracts
`os.walk` plus the suffix filter and `os.path.join`); any other
argument is used as a path directly. -/
def expandArg (isDir : String → Bool) (walkPy : String → List String)
    (arg : String) : List String :=
  if isDir arg then walkPy arg else [arg]

/-- The sequence of per-unit calls `main` makes for a given argument
list: `checkPath(path, reporter)` with `main`'s reporter for each
expanded path, or a single `check(sys.stdin.read(), '<stdin>')` call
with no reporter argument when `args` is empty. -/
def mainCalls (isDir : String → Bool) (walkPy : String → List String)
    (args : List String) : List UnitCall :=
  match args with
  | [] => [UnitCall.stdinCall "<stdin>" none]
  | _ :: _ =>
    (args.flatMap (expandArg isDir walkPy)).map fun p =>
      UnitCall.pathCall p (some mainReporter)

/-- The environment `main` runs in: its command-line arguments, the
file system (directory test, recursive `.py` walk, file reads), the
standard-input contents, and the external parser/analyzer. -/
structure Env where
  args : List String
  isDir : String → Bool
  walkPy : String → List String
  readFile : String → ReadResult
  stdin : String
  parse : String → ParseResult

/-- Running one per-unit call of `main`. -/
def runUnit (env : Env) : UnitCall → Option CheckOut
  | .pathCall p _ => checkPath p (env.readFile p) env.parse
  | .stdinCall fn _ => check fn (env.parse env.stdin)

/-- The function `main()`: runs every per-unit call, sums the returned
counts into `warnings`, and terminates via
`raise SystemExit(warnings > 0)`.  The returned pair is the total and
the exit status truth value; `none` models an exception escaping one of
the per-unit calls. -/
def main (env : Env) : Option (Nat × Bool) :=
  match (mainCalls env.isDir env.walkPy env.args).mapM (runUnit env) with
  | none => none
  | some outs =>
    let w := (outs.map CheckOut.count).sum
    some (w, decide (0 < w))

/-- The cumulative contents of the two output streams at some point of
a run. -/
structure RunState where
  errLog : List String
  outLog : List String
deriving DecidableEq, Repr

/-- One `check` call in a running process: its writes are appended to
the stream contents, and its reporter calls and return value are
produced.  Captures that the only effect of a call is appending its
own output. -/
def checkOn (filename : String) (pr : ParseResult) (st : RunState) :
    RunState × Option (List Diagnostic × Nat) :=
  match check filename pr with
  | none => (st, none)
  | some out =>
    ({ errLog := st.errLog ++ out.errWrites, outLog := st.outLog ++ out.outWrites },
      some (out.diags, out.count))

/-- How the `Reporter` renders each `Diagnostic` as one message on its
stream. -/
def renderDiag : Diagnostic → String
  | .ioFailure p m => Reporter.ioErrorMsg p m
  | .decodeFailure p => Reporter.decodeMsg p
  | .synFailure p m l o line => Reporter.synErrorMsg p m l o line

/-- A concrete environment: no arguments, empty standard input, a
parser/analyzer finding nothing. -/
def envEmptyStdin : Env :=
  { args := []
    isDir := fun _ => false
    walkPy := fun _ => []
    readFile := fun _ => .ioError "No such file or directory"
    stdin := ""
    parse := fun _ => .ok [] }

/-- `str.splitlines()` never produces an empty list on a nonempty
character list. -/
theorem pySplitAux_ne_nil (acc : List Char) (cs : List Char) :
    pySplitAux acc cs ≠ [] := by
  induction cs generalizing acc with
  | nil => simp [pySplitAux]
  | cons c rest ih =>
    by_cases hc : c = '\n'
    · cases rest with
      | nil => simp [pySplitAux, hc]
      | cons d rest2 => simp [pySplitAux, hc]
    · simpa [pySplitAux, hc] using ih (c :: acc)

/-- `str.splitlines()` of a nonempty string is nonempty. -/
theorem pySplitlines_ne_nil (s : String) (h : s ≠ "") : pySplitlines s ≠ [] := by
  obtain ⟨data⟩ := s
  cases data with
  | nil => exact absurd rfl h
  | cons c rest => simpa [pySplitlines] using pySplitAux_ne_nil [] (c :: rest)

/-- Inserting a message into a list leaves its equal-line-number
sublist intact except for the inserted message going first: the prefix
the insertion skips over consists of strictly smaller line numbers. -/
theorem filter_orderedInsert_line (a : PyMessage) (l : List PyMessage) (k : Nat) :
    (List.orderedInsert msgLe a l).filter (fun m => m.lineno == k) =
      if a.lineno = k then a :: l.filter (fun m => m.lineno == k)
      else l.filter (fun m => m.lineno == k) := by
  induction l with
  | nil =>
    by_cases hk : a.lineno = k <;>
      simp [List.orderedInsert, List.filter_cons, hk]
  | cons b l ih =>
    by_cases hab : msgLe a b
    · by_cases hk : a.lineno = k <;> by_cases hbk : b.lineno = k <;>
        simp [List.orderedInsert, hab, List.filter_cons, hk, hbk]
    · have hba : b.lineno < a.lineno := Nat.lt_of_not_le hab
      by_cases hk : a.lineno = k
      · have hbk : b.lineno ≠ k := by omega
        simp [List.orderedInsert, hab, List.filter_cons, hbk, ih, hk]
      · by_cases hbk : b.lineno = k <;>
          simp [List.orderedInsert, hab, List.filter_cons, hbk, ih, hk]

/-- Stability of the sort in `check`: for every line number, the
messages carrying that line number appear in the sorted output exactly
in their original order. -/
theorem filter_sortByLine (l : List PyMessage) (k : Nat) :
    (sortByLine l).filter (fun m => m.lineno == k) =
      l.filter (fun m => m.lineno == k) := by
  induction l with
  | nil => rfl
  | cons a l ih =>
    simp only [sortByLine] at ih ⊢
    by_cases hk : a.lineno = k <;>
      simp [List.insertionSort, filter_orderedInsert_line, hk, List.filter_cons, ih]

/-- The sort in `check` produces a list sorted by line number. -/
theorem pairwise_sortByLine (l : List PyMessage) : (sortByLine l).Pairwise msgLe :=
  List.sorted_insertionSort msgLe l

/-- The sort in `check` preserves length. -/
theorem length_sortByLine (l : List PyMessage) : (sortByLine l).length = l.length :=
  List.length_insertionSort msgLe l

/-- C1 (counterexample): a SyntaxError whose failing text is available
but empty.  `text.splitlines()` is then `[]`, so the `[-1]` indexing in
`check` raises `IndexError` (modelled by `none`): no SyntaxFailure
diagnostic is emitted and no count is returned, contrary to the claim,
which only assumes the text is not `None`. -/
theorem check_c1_cex :
    check "f" (ParseResult.synError ⟨"invalid syntax", 1, some 5, some ""⟩) = none :=
  rfl

/-- C1 (amended): for every call to `check` where parsing raises a
syntax error whose failing text is available and non-empty, `check`
emits exactly one SyntaxFailure diagnostic whose displayed line is the
last physical line of the failing text and whose offset, when the
original offset is present, equals
`original_offset - (length(full_failing_text) - length(last_line))`
with no clamping, and returns 1. -/
theorem check_c1 (filename : String) (e : SynErr) (t : String)
    (ht : e.text = some t) (hne : t ≠ "") :
    ∃ line, (pySplitlines t).getLast? = some line ∧
      check filename (.synError e) = some
        { errWrites := [Reporter.synErrorMsg filename e.msg e.lineno
            (e.offset.map fun o => o - ((t.length : Int) - (line.length : Int))) line]
          outWrites := []
          diags := [.synFailure filename e.msg e.lineno
            (e.offset.map fun o => o - ((t.length : Int) - (line.length : Int))) line]
          warningsOut := []
          count := 1 } := by
  have h1 : pySplitlines t ≠ [] := pySplitlines_ne_nil t hne
  have h2 : (pySplitlines t).getLast?.isSome = true := List.getLast?_isSome.mpr h1
  obtain ⟨line, hl⟩ := Option.isSome_iff_exists.mp h2
  exact ⟨line, hl, by simp [check, ht, hl]⟩

/-- C1 (witness): the two-line failing text `"ab\ncd"` with original
offset 10; the displayed line is `"cd"` and the recomputed offset is
`10 - (5 - 2) = 7`. -/
theorem check_c1_witness :
    ∃ line, (pySplitlines "ab\ncd").getLast? = some line ∧
      check "w1" (.synError ⟨"bad", 2, some 10, some "ab\ncd"⟩) = some
        { errWrites := [Reporter.synErrorMsg "w1" "bad" 2
            ((some (10 : Int)).map fun o =>
              o - ((("ab\ncd" : String).length : Int) - ((line.length : Int)))) line]
          outWrites := []
          diags := [.synFailure "w1" "bad" 2
            ((some (10 : Int)).map fun o =>
              o - ((("ab\ncd" : String).length : Int) - ((line.length : Int)))) line]
          warningsOut := []
          count := 1 } :=
  check_c1 "w1" ⟨"bad", 2, some 10, some "ab\ncd"⟩ "ab\ncd" rfl (by decide)

/-- C2 (counterexample): `check` does not convert every parse failure;
with an empty failing text the handler itself raises `IndexError`
(modelled by `none`), which escapes to the caller. -/
theorem check_c2_cex :
    check "g" (ParseResult.synError ⟨"m2", 2, none, some ""⟩) = none :=
  rfl

/-- C2 (amended): for every input, `check` never raises — except when
parsing raises a syntax error whose failing text is the empty string,
in which case an `IndexError` escapes; every other parse failure is
converted into exactly one diagnostic and the integer count 1. -/
theorem check_c2 (filename : String) (pr : ParseResult)
    (h : ∀ e, pr = ParseResult.synError e → e.text ≠ some "") :
    ∃ out, check filename pr = some out ∧
      ∀ e, pr = ParseResult.synError e → out.count = 1 ∧ out.diags.length = 1 := by
  cases pr with
  | ok messages =>
    exact ⟨_, rfl, fun e he => by cases he⟩
  | synError e =>
    cases ht : e.text with
    | none =>
      refine ⟨{ errWrites := [Reporter.decodeMsg filename], outWrites := []
                diags := [.decodeFailure filename], warningsOut := [], count := 1 },
        by simp [check, ht], fun e' he' => by cases he'; simp⟩
    | some t =>
      have hne : t ≠ "" := by
        intro hteq
        exact h e rfl (hteq ▸ ht)
      obtain ⟨line, hl, hout⟩ := check_c1 filename e t ht hne
      exact ⟨_, hout, fun e' he' => by cases he'; simp⟩

/-- C2 (witness): a SyntaxError with unavailable text is converted into
one diagnostic and count 1. -/
theorem check_c2_witness :
    ∃ out, check "w2" (ParseResult.synError ⟨"m", 1, none, none⟩) = some out ∧
      ∀ e, ParseResult.synError ⟨"m", 1, none, none⟩ = ParseResult.synError e →
        out.count = 1 ∧ out.diags.length = 1 :=
  check_c2 "w2" (ParseResult.synError ⟨"m", 1, none, none⟩)
    (fun e he => by cases he; decide)

/-- C3: for every syntactically valid input whose analysis yields N
findings, `check` returns N and emits the warnings sorted by ascending
line number with a stable sort: for each line number, the findings
carrying it appear in the analyzer's original emission order. -/
theorem check_c3 (filename : String) (messages : List PyMessage) :
    ∃ out, check filename (.ok messages) = some out ∧
      out.count = messages.length ∧
      out.warningsOut.Pairwise msgLe ∧
      (∀ k, out.warningsOut.filter (fun m => m.lineno == k) =
        messages.filter (fun m => m.lineno == k)) ∧
      out.outWrites = out.warningsOut.map (fun m => m.text ++ "\n") := by
  refine ⟨_, rfl, ?_, ?_, ?_, rfl⟩
  · exact length_sortByLine messages
  · exact pairwise_sortByLine messages
  · exact fun k => filter_sortByLine messages k

/-- C4: `main` terminates the process with a true (non-zero) exit
status if and only if the sum of the counts returned by its per-unit
checks is greater than zero; otherwise it exits with a false (success)
status. -/
theorem main_c4 (env : Env) (t : Nat) (e : Bool) (h : main env = some (t, e)) :
    (e = true ↔ 0 < t) ∧
    ∃ outs, (mainCalls env.isDir env.walkPy env.args).mapM (runUnit env) = some outs ∧
      t = (outs.map CheckOut.count).sum := by
  unfold main at h
  cases hm : (mainCalls env.isDir env.walkPy env.args).mapM (runUnit env) with
  | none => rw [hm] at h; cases h
  | some outs =>
    rw [hm] at h
    simp only [Option.some.injEq, Prod.mk.injEq] at h
    obtain ⟨ht, he⟩ := h
    subst ht
    subst he
    exact ⟨by simp, outs, rfl, rfl⟩

/-- C4 (witness): the run over empty standard input with no arguments
returns total 0 and exit status false. -/
theorem main_c4_witness :
    ((false = true) ↔ 0 < 0) ∧
    ∃ outs,
      (mainCalls envEmptyStdin.isDir envEmptyStdin.walkPy envEmptyStdin.args).mapM
        (runUnit envEmptyStdin) = some outs ∧
      0 = (outs.map CheckOut.count).sum :=
  main_c4 envEmptyStdin 0 false rfl

/-- C5 (counterexample): one analysis warning is printed to standard
output (`print warning`), refuting the claim that no output of this
core goes to standard output: here `outWrites` is nonempty while the
reporter stream receives nothing. -/
theorem check_c5_cex :
    check "f5" (ParseResult.ok [⟨1, "w"⟩]) = some
      { errWrites := [], outWrites := ["w\n"], diags := []
        warningsOut := [⟨1, "w"⟩], count := 1 } :=
  rfl

/-- C5 (amended): every failure diagnostic is written to the reporter's
stream (standard error by default), each rendered as one message, while
the analysis warnings are printed to standard output, one line each. -/
theorem check_c5 (filename : String) (pr : ParseResult) (out : CheckOut)
    (h : check filename pr = some out) :
    out.errWrites = out.diags.map renderDiag ∧
    out.outWrites = out.warningsOut.map (fun m => m.text ++ "\n") := by
  cases pr with
  | ok messages =>
    simp only [check, Option.some.injEq] at h
    subst h
    simp [renderDiag]
  | synError e =>
    cases ht : e.text with
    | none =>
      simp only [check, ht, Option.some.injEq] at h
      subst h
      simp [renderDiag]
    | some t =>
      cases hl : (pySplitlines t).getLast? with
      | none => simp [check, ht, hl] at h
      | some line =>
        simp only [check, ht, hl, Option.some.injEq] at h
        subst h
        simp [renderDiag]

/-- C5 (witness): a run with one finding writes nothing to the
reporter's stream and one line per warning to standard output. -/
theorem check_c5_witness :
    ([] : List String) = ([] : List Diagnostic).map renderDiag ∧
    ["x\n"] = ([⟨2, "x"⟩] : List PyMessage).map (fun m => m.text ++ "\n") :=
  check_c5 "w5" (ParseResult.ok [⟨2, "x"⟩])
    { errWrites := [], outWrites := ["x\n"], diags := []
      warningsOut := [⟨2, "x"⟩], count := 1 } rfl

/-- C6: for every call to `check` where parsing raises a syntax error
whose failing line text is unavailable (`None`), `check` emits exactly
one DecodeFailure diagnostic (never a SyntaxFailure) and returns 1. -/
theorem check_c6 (filename : String) (e : SynErr) (h : e.text = none) :
    check filename (.synError e) = some
      { errWrites := [Reporter.decodeMsg filename]
        outWrites := []
        diags := [.decodeFailure filename]
        warningsOut := []
        count := 1 } := by
  simp [check, h]

/-- C6 (witness): a concrete SyntaxError with `text = None`. -/
theorem check_c6_witness :
    check "w6" (.synError ⟨"m6", 3, some 1, none⟩) = some
      { errWrites := [Reporter.decodeMsg "w6"]
        outWrites := []
        diags := [.decodeFailure "w6"]
        warningsOut := []
        count := 1 } :=
  check_c6 "w6" ⟨"m6", 3, some 1, none⟩ rfl

/-- C7: for every path on which opening or reading the file fails,
`checkPath` emits exactly one IOFailure diagnostic carrying the path
and the underlying message, returns 1, and never propagates the
underlying failure to its caller. -/
theorem checkPath_c7 (filename m : String) (parse : String → ParseResult) :
    checkPath filename (.ioError m) parse = some
      { errWrites := [Reporter.ioErrorMsg filename m]
        outWrites := []
        diags := [.ioFailure filename m]
        warningsOut := []
        count := 1 } :=
  rfl

/-- C8 (counterexample): at a (present) negative corrected offset of
-2, the caret part written by `Reporter.syntaxError` contains zero
space characters, not `offset + 1 = -1` of them: Python's
`" " * (offset + 1)` is empty for any non-positive factor. -/
theorem reporter_c8_cex :
    (((caretOf (some (-2))).data.count ' ' : Int)) ≠ (-2) + 1 := by
  decide

/-- C8 (amended): each Reporter formatting operation produces exactly
one message on its stream and never raises; `ioError` and
`problemDecodingSource` write the one-line formats, and `syntaxError`
writes the header line, the offending line, and — only when the offset
is present — a caret line of `max(offset + 1, 0)` space characters
followed by `"^"`. -/
theorem reporter_c8 (fn m line : String) (ln : Nat) (o : Int) :
    Reporter.ioErrorMsg fn m = fn ++ ": " ++ m ++ "\n" ∧
    Reporter.decodeMsg fn = fn ++ ": problem decoding source\n" ∧
    Reporter.synErrorMsg fn m ln none line =
      fn ++ ":" ++ toString ln ++ ": " ++ m ++ "\n" ++ line ++ "\n" ∧
    Reporter.synErrorMsg fn m ln (some o) line =
      fn ++ ":" ++ toString ln ++ ": " ++ m ++ "\n" ++ line ++ "\n" ++
        pySpaces (o + 1) ++ "^\n" ∧
    (pySpaces (o + 1)).data.count ' ' = (o + 1).toNat ∧
    (pySpaces (o + 1)).length = (o + 1).toNat := by
  refine ⟨rfl, rfl, ?_, ?_, ?_, ?_⟩
  · simp [Reporter.synErrorMsg, caretOf]
  · simp [Reporter.synErrorMsg, caretOf, String.append_assoc]
  · simp [pySpaces, List.count_replicate_self]
  · simp [pySpaces, String.length]

/-- C9: running `check` twice on the identical input and filename from
any starting stream state returns the same reporter calls and count
both times and appends the same output both times: no state is carried
between the two calls. -/
theorem check_c9 (filename : String) (pr : ParseResult) (st : RunState) :
    (checkOn filename pr st).2 = (checkOn filename pr (checkOn filename pr st).1).2 ∧
    ∃ derr dout,
      (checkOn filename pr st).1.errLog = st.errLog ++ derr ∧
      (checkOn filename pr st).1.outLog = st.outLog ++ dout ∧
      (checkOn filename pr (checkOn filename pr st).1).1.errLog =
        (checkOn filename pr st).1.errLog ++ derr ∧
      (checkOn filename pr (checkOn filename pr st).1).1.outLog =
        (checkOn filename pr st).1.outLog ++ dout := by
  cases h : check filename pr with
  | none => exact ⟨by simp [checkOn, h], [], [], by simp [checkOn, h]⟩
  | some out =>
    exact ⟨by simp [checkOn, h], out.errWrites, out.outWrites, by simp [checkOn, h]⟩

/-- C10: when `main` is invoked with no arguments, the standard-input
unit is checked by a `check` call whose reporter argument is `None`, so
`check` constructs and uses a fresh default `Reporter(sys.stderr)`; the
Reporter instance `main` constructs at its start is not the one used
for that call. -/
theorem main_c10 (isDir : String → Bool) (walkPy : String → List String) :
    mainCalls isDir walkPy [] = [UnitCall.stdinCall "<stdin>" none] ∧
    reporterUsedByCheck none = checkDefaultReporter ∧
    checkDefaultReporter.stream = StreamTag.stderr ∧
    checkDefaultReporter ≠ mainReporter := by
  refine ⟨rfl, rfl, rfl, ?_⟩
  decide

end Pyflakes
